import Mathlib

/-!
Verification of the TDK-Lambda Zup power-supply serial driver
(file lambda_zup.py of this repository).

The driver builds fixed-format textual commands (colon-delimited,
semicolon-terminated), parses fixed-format replies, and serializes bus
access through a per-instance re-entrant lock.  This development gives a
shallow embedding of those parts of the driver:

* Python numeric values appearing in commands and replies are modelled as
  exact rationals.  Python renders a float with a fixed-format specifier
  (for example the specifier with total width 5 and 3 decimals used for a
  6 V unit) by rounding the value to the requested number of decimals,
  half to even, and zero-padding on the left to the requested total
  width; pyFixedFmt implements exactly that rendering.
* Fallible Python code (assert, dictionary lookup, string indexing,
  float conversion) is embedded with Except over the error kinds that
  the corresponding Python statements raise.
* The regex extraction of the composite status reply is embedded as the
  equivalent deterministic scanner (the regex alternations collapse: a
  greedy digit run followed by a non-digit requirement has no other
  backtracking solutions).
* The per-instance re-entrant lock and thread interleavings are embedded
  as a small-step scheduler over two explicit thread programs.
-/

/-- Error kinds of the Python exceptions the driver can raise. -/
inductive PyErr where
  | assertionError
  | valueError
  | indexError
  | keyError
deriving DecidableEq

/-- Left-pad a string with the character 0 up to length k
(Python zero-padding for numeric format specifiers). -/
def padZeroLeft (k : ℕ) (s : String) : String :=
  String.mk (List.replicate (k - s.length) '0') ++ s

theorem padZeroLeft_length (k : ℕ) (s : String) :
    (padZeroLeft k s).length = max k s.length := by
  simp only [padZeroLeft, String.length_append, String.length_mk,
    List.length_replicate]
  omega

/-- Decimal digit list of a natural number, most significant first
(fuel-structured so that concrete instances reduce by rfl). -/
def natDigitsAux : ℕ → ℕ → List Char
  | 0, _ => []
  | fuel + 1, n =>
    if n < 10 then [Nat.digitChar n]
    else natDigitsAux fuel (n / 10) ++ [Nat.digitChar (n % 10)]

/-- Decimal digit list of a natural number, most significant first. -/
def natDigits (n : ℕ) : List Char := natDigitsAux (n + 1) n

theorem natDigitsAux_length_le (fuel : ℕ) :
    ∀ n k, n < fuel → 0 < k → n < 10 ^ k →
      (natDigitsAux fuel n).length ≤ k := by
  induction fuel with
  | zero => intro n k h; omega
  | succ fuel ih =>
    intro n k hfuel hk hpow
    by_cases h10 : n < 10
    · simp [natDigitsAux, h10]; omega
    · have hk2 : 2 ≤ k := by
        by_contra hlt
        have : k = 1 := by omega
        subst this
        simp at hpow
        omega
      have hdivfuel : n / 10 < fuel := by
        have : n / 10 < n := Nat.div_lt_self (by omega) (by omega)
        omega
      have hdivpow : n / 10 < 10 ^ (k - 1) := by
        have hk1 : 10 ^ k = 10 ^ (k - 1) * 10 := by
          have : k - 1 + 1 = k := by omega
          calc 10 ^ k = 10 ^ (k - 1 + 1) := by rw [this]
            _ = 10 ^ (k - 1) * 10 := by rw [pow_succ]
        apply Nat.div_lt_of_lt_mul
        omega
      have := ih (n / 10) (k - 1) hdivfuel (by omega) hdivpow
      simp only [natDigitsAux, if_neg h10, List.length_append,
        List.length_cons, List.length_nil]
      omega

theorem natDigits_length_le (n k : ℕ) (hk : 0 < k) (h : n < 10 ^ k) :
    (natDigits n).length ≤ k :=
  natDigitsAux_length_le (n + 1) n k (Nat.lt_succ_self n) hk h

theorem natDigitsAux_ne_nil (fuel n : ℕ) :
    natDigitsAux (fuel + 1) n ≠ [] := by
  by_cases h : n < 10 <;> simp [natDigitsAux, h]

theorem natDigits_length_pos (n : ℕ) : 0 < (natDigits n).length := by
  have := natDigitsAux_ne_nil n n
  exact List.length_pos.mpr this

/-- Round a rational to the nearest integer, half to even.  This is the
rounding that Python applies when rendering a float with a fixed number
of decimals. -/
def roundHalfEven (q : ℚ) : ℤ :=
  if q - ⌊q⌋ < 1 / 2 then ⌊q⌋
  else if 1 / 2 < q - ⌊q⌋ then ⌊q⌋ + 1
  else if ⌊q⌋ % 2 = 0 then ⌊q⌋ else ⌊q⌋ + 1

theorem roundHalfEven_nonneg (q : ℚ) (h : 0 ≤ q) : 0 ≤ roundHalfEven q := by
  have hf : (0 : ℤ) ≤ ⌊q⌋ := Int.floor_nonneg.mpr h
  unfold roundHalfEven
  split
  · exact hf
  · split
    · omega
    · split
      · exact hf
      · omega

theorem roundHalfEven_le (q : ℚ) (M : ℤ) (h : q ≤ M) :
    roundHalfEven q ≤ M := by
  have hf : ⌊q⌋ ≤ M := by
    have := Int.floor_le_floor h
    simpa using this
  have hlt : (⌊q⌋ : ℚ) < q → ⌊q⌋ + 1 ≤ M := by
    intro hq
    have : (⌊q⌋ : ℚ) < (M : ℚ) := lt_of_lt_of_le hq h
    have : ⌊q⌋ < M := by exact_mod_cast this
    omega
  unfold roundHalfEven
  split
  · exact hf
  · rename_i h1
    push_neg at h1
    split
    · rename_i h2
      apply hlt
      have : (0 : ℚ) < q - ⌊q⌋ := lt_trans (by norm_num) h2
      linarith [this]
    · split
      · exact hf
      · apply hlt
        have : (0 : ℚ) < q - ⌊q⌋ := lt_of_lt_of_le (by norm_num) h1
        linarith [this]

/-- Python fixed-format float rendering: the value rounded to d decimals
(half to even), rendered as int-part, decimal point, exactly d fraction
digits, sign first, zero-padded after the sign to total width w.
Models Python format specifiers of the 0-padded fixed-point family, for
example total width 5 with 3 decimals, and the width-1 2-decimal
specifier used by the protection setters. -/
def fmtCore (d : ℕ) (a : ℕ) : String :=
  String.mk (natDigits (a / 10 ^ d)) ++ "." ++
    padZeroLeft d (String.mk (natDigits (a % 10 ^ d)))

def pyFixedFmt (w d : ℕ) (q : ℚ) : String :=
  (if roundHalfEven (q * (10 : ℚ) ^ d) < 0 then "-" else "") ++
    padZeroLeft
      (w - (if roundHalfEven (q * (10 : ℚ) ^ d) < 0 then "-" else "").length)
      (fmtCore d (roundHalfEven (q * (10 : ℚ) ^ d)).natAbs)

theorem fmtCore_length (d a : ℕ) :
    (fmtCore d a).length =
      (natDigits (a / 10 ^ d)).length + 1 +
        max d (natDigits (a % 10 ^ d)).length := by
  have hdot : ("." : String).length = 1 := rfl
  simp only [fmtCore, String.length_append, padZeroLeft_length,
    String.length_mk, hdot]

/-- For 0 ≤ v ≤ M with M below the capacity of the integer-digit field,
the rendered string has exactly the total width w. -/
theorem pyFixedFmt_length (w d M : ℕ) (v : ℚ) (h0 : 0 ≤ v)
    (h1 : v ≤ (M : ℚ)) (hM : M < 10 ^ (w - 1 - d)) (hd : 0 < d)
    (hwd : d + 2 ≤ w) : (pyFixedFmt w d v).length = w := by
  have hscale0 : (0 : ℚ) ≤ v * (10 : ℚ) ^ d := by positivity
  have hscale1 : v * (10 : ℚ) ^ d ≤ ((M * 10 ^ d : ℕ) : ℚ) := by
    push_cast
    have hpow : (0 : ℚ) < (10 : ℚ) ^ d := by positivity
    calc v * (10 : ℚ) ^ d ≤ (M : ℚ) * (10 : ℚ) ^ d := by
          exact mul_le_mul_of_nonneg_right h1 (le_of_lt hpow)
      _ = (M : ℚ) * (10 : ℚ) ^ d := rfl
  set n := roundHalfEven (v * (10 : ℚ) ^ d) with hn
  have hn0 : 0 ≤ n := roundHalfEven_nonneg _ hscale0
  have hnM : n ≤ (M * 10 ^ d : ℕ) := by
    apply roundHalfEven_le
    exact_mod_cast hscale1
  have hA : n.natAbs ≤ M * 10 ^ d := by omega
  have hint : n.natAbs / 10 ^ d ≤ M := by
    have := Nat.div_le_div_right (c := 10 ^ d) hA
    rwa [Nat.mul_div_cancel M (by positivity)] at this
  have hintlen : (natDigits (n.natAbs / 10 ^ d)).length ≤ w - 1 - d := by
    apply natDigits_length_le _ _ (by omega)
    omega
  have hfraclen : (natDigits (n.natAbs % 10 ^ d)).length ≤ d := by
    apply natDigits_length_le _ _ hd
    exact Nat.mod_lt _ (by positivity)
  have hsign : ¬ n < 0 := by omega
  have hempty : ("" : String).length = 0 := rfl
  rw [pyFixedFmt, ← hn, if_neg hsign, String.length_append, hempty,
    padZeroLeft_length, fmtCore_length]
  set il := (natDigits (n.natAbs / 10 ^ d)).length with hil
  set fl := (natDigits (n.natAbs % 10 ^ d)).length with hfl
  have hMw : M + 1 ≤ 10 ^ (w - 1 - d) := hM
  omega

/-- Python integer rendering with the 2-digit zero-padded specifier
(sign first, zero-padded after the sign to width w). -/
def pyIntPad (w : ℕ) (a : ℤ) : String :=
  let sign := if a < 0 then "-" else ""
  sign ++ padZeroLeft (w - sign.length) (String.mk (natDigits a.natAbs))

/-! ### Command construction (LambdaZup setters) -/

/-- The per-model voltage format table v_format_strs of the source:
rated max voltage to (total width, decimals) of the Python format
specifier.  A rated voltage outside the table is a KeyError. -/
def v_format_strs : ℕ → Option (ℕ × ℕ)
  | 6 => some (5, 3)
  | 10 => some (6, 3)
  | 20 => some (6, 3)
  | 36 => some (5, 2)
  | 60 => some (5, 2)
  | 80 => some (5, 2)
  | 120 => some (6, 2)
  | _ => none

/-- LambdaZup.set_voltage: assert 0 <= volt <= max_voltage, look up the
model's format, emit the command passed to _write. -/
def set_voltage (max_voltage : ℕ) (volt : ℚ) : Except PyErr String :=
  if 0 ≤ volt ∧ volt ≤ (max_voltage : ℚ) then
    match v_format_strs max_voltage with
    | some (w, d) => .ok (":VOL" ++ pyFixedFmt w d volt ++ ";")
    | none => .error .keyError
  else .error .assertionError

/-- LambdaZup.set_address: the argument is either absent (None) or an
integer.  Python falsiness makes both None and 0 fall back to the stored
address; then assert 0 < adr < 32, emit the 2-digit command and return
the updated stored address. -/
def set_address (stored : ℤ) (adr : Option ℤ) : Except PyErr (String × ℤ) :=
  match (match adr with
         | none => stored
         | some x => if x = 0 then stored else x) with
  | a =>
    if 0 < a ∧ a < 32 then .ok (":ADR" ++ pyIntPad 2 a ++ ";", a)
    else .error .assertionError

/-- Python values that can reach set_foldback_protection. -/
inductive PyVal where
  | pybool : Bool → PyVal
  | pyint : ℤ → PyVal
  | pystr : String → PyVal
deriving DecidableEq

/-- Python equality on those values: booleans compare equal to the
integers 1 and 0. -/
def pyEq : PyVal → PyVal → Bool
  | .pybool a, .pybool b => decide (a = b)
  | .pybool a, .pyint n => decide (n = if a then 1 else 0)
  | .pyint n, .pybool a => decide (n = if a then 1 else 0)
  | .pyint m, .pyint n => decide (m = n)
  | .pystr s, .pystr t => decide (s = t)
  | _, _ => false

/-- Python membership test x in list. -/
def pyIn (x : PyVal) (l : List PyVal) : Bool := l.any (pyEq x)

/-- LambdaZup.set_foldback_protection: three if/elif branches and no
else branch, so a value matching none of them returns normally without
transmitting anything (result .ok none). -/
def set_foldback_protection (fld : PyVal) : Except PyErr (Option String) :=
  if pyIn fld [.pybool true, .pyint 1, .pystr "arm"] then .ok (some ":FLD1;")
  else if pyIn fld [.pybool false, .pyint 0, .pystr "release"] then
    .ok (some ":FLD0;")
  else if pyIn fld [.pyint 2, .pystr "cancel"] then .ok (some ":FLD2;")
  else .ok none

/-- LambdaZup.get_output applied to the stripped reply line: assert the
2-character tag, then decode OT1/OT0, anything else a ValueError. -/
def get_output (reply : String) : Except PyErr Bool :=
  if reply.take 2 = "OT" then
    if reply = "OT1" then .ok true
    else if reply = "OT0" then .ok false
    else .error .valueError
  else .error .assertionError

/-- LambdaZup.set_over_voltage_protection: assert the rated bound, then
format with the fixed 2-decimal width-1 specifier (no per-model table). -/
def set_over_voltage_protection (max_voltage : ℕ) (volt : ℚ) :
    Except PyErr String :=
  if 0 ≤ volt ∧ volt ≤ (max_voltage : ℚ) then
    .ok (":OVP" ++ pyFixedFmt 1 2 volt ++ ";")
  else .error .assertionError

/-- LambdaZup.set_under_voltage_protection: same shape as the
over-voltage setter, fixed 2-decimal width-1 specifier. -/
def set_under_voltage_protection (max_voltage : ℕ) (volt : ℚ) :
    Except PyErr String :=
  if 0 ≤ volt ∧ volt ≤ (max_voltage : ℚ) then
    .ok (":UVP" ++ pyFixedFmt 1 2 volt ++ ";")
  else .error .assertionError

/-- LambdaZup._write: index cmd[0] (IndexError on the empty string),
assert it is the colon, assert cmd[-1] is the semicolon, and only then
write (optionally an address-select first, then the command).  The
returned list is the sequence of strings written to the transport. -/
def zupWrite (always_send_address : Bool) (address : ℤ) (cmd : String) :
    Except PyErr (List String) :=
  match cmd.data with
  | [] => .error .indexError
  | c :: _ =>
    if c = ':' then
      if cmd.data.getLast? = some ';' then
        .ok ((if always_send_address then [":ADR" ++ pyIntPad 2 address ++ ";"]
              else []) ++ [cmd])
      else .error .assertionError
    else .error .assertionError

/-! ### Composite status reply parsing (LambdaZup.get_complete_status)

The source compiles the pattern AV f SV f AA f SA f OS d+ AL d+ PS d+
where f is the float pattern: optional sign, optional digit run, a
decimal point, a nonempty digit run, followed by a negative lookahead
refusing a sign, digit or dot.  findall scans for the leftmost match and
allows arbitrary text after the match.  Every quantifier in the pattern
is a greedy run over a character class that is disjoint from the literal
that follows it, so backtracking adds no further matches and the regex
is equivalent to the deterministic scanner below. -/

/-- Split a character list into its maximal leading digit run and the
rest (the greedy digit-run step of the regex). -/
def spanDigits (cs : List Char) : List Char × List Char :=
  (cs.takeWhile Char.isDigit, cs.dropWhile Char.isDigit)

/-- Characters refused by the negative lookahead after each float
field. -/
def floatFollowSet (c : Char) : Bool :=
  c.isDigit || c = '.' || c = '+' || c = '-'

/-- Match the float field of the status pattern at the start of the
input: optional sign, digit run, dot, nonempty digit run, then the
negative lookahead.  Returns the capture and the unconsumed rest. -/
def parseFloatBody (sgn cs1 : List Char) : Option (List Char × List Char) :=
  match spanDigits cs1 with
  | (ip, cs2) =>
    match cs2 with
    | '.' :: cs3 =>
      match spanDigits cs3 with
      | (fp, cs4) =>
        if fp = [] then none
        else
          match cs4 with
          | [] => some (sgn ++ ip ++ '.' :: fp, [])
          | c :: _ =>
            if floatFollowSet c then none
            else some (sgn ++ ip ++ '.' :: fp, cs4)
    | _ => none

def parseFloatField (cs : List Char) : Option (List Char × List Char) :=
  match cs with
  | c :: rest =>
    if c = '+' ∨ c = '-' then parseFloatBody [c] rest
    else parseFloatBody [] cs
  | [] => parseFloatBody [] []

/-- Match a fixed 2-letter tag at the start of the input. -/
def parseTag (a b : Char) : List Char → Option (List Char)
  | x :: y :: rest => if x = a ∧ y = b then some rest else none
  | _ => none

/-- Match a nonempty digit run (the register captures). -/
def parseDigits1 (cs : List Char) : Option (List Char × List Char) :=
  match spanDigits cs with
  | (ds, rest) => if ds = [] then none else some (ds, rest)

/-- The seven captures of one composite-status match. -/
structure StatusRaw where
  av : List Char
  sv : List Char
  aa : List Char
  sa : List Char
  os : List Char
  al : List Char
  ps : List Char
deriving DecidableEq

/-- Try to match the complete status pattern at the start of the input;
text after the match is ignored, as for a regex search. -/
def matchStatusAt (cs : List Char) : Option StatusRaw := do
  let r ← parseTag 'A' 'V' cs
  let (av, r) ← parseFloatField r
  let r ← parseTag 'S' 'V' r
  let (sv, r) ← parseFloatField r
  let r ← parseTag 'A' 'A' r
  let (aa, r) ← parseFloatField r
  let r ← parseTag 'S' 'A' r
  let (sa, r) ← parseFloatField r
  let r ← parseTag 'O' 'S' r
  let (os, r) ← parseDigits1 r
  let r ← parseTag 'A' 'L' r
  let (al, r) ← parseDigits1 r
  let r ← parseTag 'P' 'S' r
  let (ps, _) ← parseDigits1 r
  pure ⟨av, sv, aa, sa, os, al, ps⟩

/-- Leftmost match of the status pattern anywhere in the input
(re.findall followed by taking the first match). -/
def findStatusMatch : List Char → Option StatusRaw
  | [] => matchStatusAt []
  | c :: rest =>
    match matchStatusAt (c :: rest) with
    | some t => some t
    | none => findStatusMatch rest

/-- Numeric value of a digit list, most significant first. -/
def natOfDigits (ds : List Char) : ℕ :=
  ds.foldl (fun a c => 10 * a + (c.toNat - 48)) 0

/-- Parse a decimal float literal into (mantissa, number of fraction
digits): optional sign, digits, optional dot and fraction digits.  This
is the exact-value core of the Python float conversion applied to the
regex captures. -/
def floatChars (cs : List Char) : Option (ℤ × ℕ) :=
  match (match cs with
         | '+' :: rest => ((1 : ℤ), rest)
         | '-' :: rest => ((-1 : ℤ), rest)
         | _ => ((1 : ℤ), cs)) with
  | (sgn, cs1) =>
    match spanDigits cs1 with
    | (ip, r) =>
      match r with
      | '.' :: r2 =>
        match spanDigits r2 with
        | (fp, r3) =>
          if (ip = [] ∧ fp = []) ∨ r3 ≠ [] then none
          else some (sgn * (natOfDigits ip * 10 ^ fp.length + natOfDigits fp),
                     fp.length)
      | [] => if ip = [] then none else some (sgn * natOfDigits ip, 0)
      | _ => none

/-- Exact rational value of a decimal float literal (Python float of a
regex capture). -/
def ratOfDecimalChars (cs : List Char) : Option ℚ :=
  (floatChars cs).map fun p => (p.1 : ℚ) / (10 : ℚ) ^ p.2

/-- The driver instance fields that get_complete_status assigns.  A
field is none until first assigned, as a Python attribute is absent
until first assigned. -/
structure DriverState where
  voltage_actual : Option ℚ := none
  voltage_setp : Option ℚ := none
  current_actual : Option ℚ := none
  current_setp : Option ℚ := none
  operational_status_register : Option String := none
  alarm_status_register : Option String := none
  programming_status_register : Option String := none
  cc_cv : Option Bool := none
  foldback_armed : Option Bool := none
  auto_restart_mode : Option Bool := none
  output : Option Bool := none
  foldback_srq : Option Bool := none
  over_voltage_srq : Option Bool := none
  over_temp_srq : Option Bool := none
  alarm_active : Option Bool := none
  alarm_ovp : Option Bool := none
  alarm_otp : Option Bool := none
  alarm_ac_fail : Option Bool := none
  alarm_foldback : Option Bool := none
  alarm_prog : Option Bool := none
  prog_err_wrong_command : Option Bool := none
  prog_err_buffer_overflow : Option Bool := none
  prog_err_wrong_voltage : Option Bool := none
  prog_err_wrong_current : Option Bool := none
deriving DecidableEq

/-- A fresh driver instance: no telemetry attribute assigned yet. -/
def initDriverState : DriverState := {}

/-- bool(int(reg[i])) on a register capture: IndexError past the end,
ValueError on a non-digit, else true exactly for a nonzero digit. -/
def flagStep (reg : List Char) (i : ℕ) : Except PyErr Bool :=
  match reg[i]? with
  | none => .error .indexError
  | some c =>
    if c.isDigit then .ok (decide (c.toNat - 48 ≠ 0))
    else .error .valueError

/-- The tuple returned by get_complete_status. -/
abbrev StatusTuple := ℚ × ℚ × ℚ × ℚ × String × String × String

/-- Run one flag assignment: on failure the exception propagates with
the driver state as updated so far. -/
def flagBind (st : DriverState) (r : Except PyErr Bool)
    (k : Bool → DriverState → Except PyErr StatusTuple × DriverState) :
    Except PyErr StatusTuple × DriverState :=
  match r with
  | .error e => (.error e, st)
  | .ok b => k b st

/-- LambdaZup.get_complete_status applied to the stripped reply line:
leftmost regex match (IndexError from indexing an empty findall result),
then the assignments of the source in order, each flag decode able to
fail after the earlier assignments have already happened.  Returns the
result paired with the driver state after the call. -/
def zupGetCompleteStatus (st : DriverState) (reply : String) :
    Except PyErr StatusTuple × DriverState :=
  match findStatusMatch reply.data with
  | none => (.error .indexError, st)
  | some ⟨av, sv, aa, sa, os, al, ps⟩ =>
    match ratOfDecimalChars av with
    | none => (.error .valueError, st)
    | some qav =>
      match ratOfDecimalChars sv with
      | none => (.error .valueError, { st with voltage_actual := some qav })
      | some qsv =>
        match ratOfDecimalChars aa with
        | none => (.error .valueError,
            { st with voltage_actual := some qav, voltage_setp := some qsv })
        | some qaa =>
          match ratOfDecimalChars sa with
          | none => (.error .valueError,
              { st with voltage_actual := some qav, voltage_setp := some qsv,
                        current_actual := some qaa })
          | some qsa =>
            let st := { st with
              voltage_actual := some qav, voltage_setp := some qsv,
              current_actual := some qaa, current_setp := some qsa,
              operational_status_register := some (String.mk os),
              alarm_status_register := some (String.mk al),
              programming_status_register := some (String.mk ps) }
            flagBind st (flagStep os 0) fun b st =>
            flagBind { st with cc_cv := some b } (flagStep os 1) fun b st =>
            flagBind { st with foldback_armed := some b } (flagStep os 2) fun b st =>
            flagBind { st with auto_restart_mode := some b } (flagStep os 3) fun b st =>
            flagBind { st with output := some b } (flagStep os 4) fun b st =>
            flagBind { st with foldback_srq := some b } (flagStep os 5) fun b st =>
            flagBind { st with over_voltage_srq := some b } (flagStep os 6) fun b st =>
            flagBind { st with over_temp_srq := some b } (flagStep os 7) fun b st =>
            flagBind { st with alarm_active := some b } (flagStep al 0) fun b st =>
            flagBind { st with alarm_ovp := some b } (flagStep al 1) fun b st =>
            flagBind { st with alarm_otp := some b } (flagStep al 2) fun b st =>
            flagBind { st with alarm_ac_fail := some b } (flagStep al 3) fun b st =>
            flagBind { st with alarm_foldback := some b } (flagStep al 4) fun b st =>
            flagBind { st with alarm_prog := some b } (flagStep ps 1) fun b st =>
            flagBind { st with prog_err_wrong_command := some b } (flagStep ps 2) fun b st =>
            flagBind { st with prog_err_buffer_overflow := some b } (flagStep ps 3) fun b st =>
            flagBind { st with prog_err_wrong_voltage := some b } (flagStep ps 4) fun b st =>
              ((.ok (qav, qsv, qaa, qsa,
                     String.mk os, String.mk al, String.mk ps)),
               { st with prog_err_wrong_current := some b })

/-! ### Bus locking (LambdaZup._write / _ask, self.lock)

Each LambdaZup instance creates its own re-entrant lock in __init__.
A query (_ask) acquires the instance lock, calls _write which re-acquires
it, writes the address-select and the command, releases the inner hold,
reads the reply, and releases the outer hold.  Two threads, each driving
one logical unit, are modelled as explicit action lists over numbered
locks; a blocked acquire leaves the state unchanged (busy wait). -/

/-- Observable bus events of one query: address-select write, command
write, reply read, tagged by the unit issuing them. -/
inductive Ev where
  | adr : ℕ → Ev
  | cmd : ℕ → Ev
  | rd : ℕ → Ev
deriving DecidableEq

/-- Thread actions: acquire / release a numbered re-entrant lock, or an
observable bus event. -/
inductive Act where
  | acq : ℕ → Act
  | rel : ℕ → Act
  | emit : Ev → Act
deriving DecidableEq

/-- Scheduler state for two threads: the remaining program of each, the
holder and re-entry count of the two locks, and the bus trace so far. -/
structure CState where
  p0 : List Act
  p1 : List Act
  own0 : Option (ℕ × ℕ)
  own1 : Option (ℕ × ℕ)
  tr : List Ev
deriving DecidableEq

def getOwn (s : CState) (l : ℕ) : Option (ℕ × ℕ) :=
  if l = 0 then s.own0 else s.own1

def setOwn (s : CState) (l : ℕ) (v : Option (ℕ × ℕ)) : CState :=
  if l = 0 then { s with own0 := v } else { s with own1 := v }

def setProg (s : CState) (t : ℕ) (p : List Act) : CState :=
  if t = 0 then { s with p0 := p } else { s with p1 := p }

/-- Thread t attempts its next action a (rest is the remainder of its
program).  A re-entrant acquire succeeds when the lock is free or held
by t itself; an acquire of a lock held by the other thread blocks,
leaving the state unchanged. -/
def doAct (s : CState) (t : ℕ) (a : Act) (rest : List Act) : CState :=
  match a with
  | .acq l =>
    match getOwn s l with
    | none => setProg (setOwn s l (some (t, 1))) t rest
    | some (t', k) =>
      if t' = t then setProg (setOwn s l (some (t, k + 1))) t rest else s
  | .rel l =>
    match getOwn s l with
    | some (t', k) =>
      if t' = t then
        setProg (setOwn s l (if k ≤ 1 then none else some (t, k - 1))) t rest
      else setProg s t rest
    | none => setProg s t rest
  | .emit e => setProg { s with tr := s.tr ++ [e] } t rest

/-- One scheduling step: run the next action of thread 0 (false) or
thread 1 (true). -/
def lockStep (s : CState) (t : Bool) : CState :=
  match t with
  | false =>
    match s.p0 with
    | [] => s
    | a :: rest => doAct s 0 a rest
  | true =>
    match s.p1 with
    | [] => s
    | a :: rest => doAct s 1 a rest

/-- Run a whole schedule. -/
def lockRun (s : CState) : List Bool → CState
  | [] => s
  | b :: bs => lockRun (lockStep s b) bs

/-- The action list of one _ask by unit t guarding with lock l: outer
acquire (_ask), inner re-entrant acquire (_write), address-select write,
command write, inner release, reply read, outer release. -/
def askProg (t l : ℕ) : List Act :=
  [.acq l, .acq l, .emit (.adr t), .emit (.cmd t), .rel l,
   .emit (.rd t), .rel l]

/-- Two units whose queries guard with one shared lock. -/
def sharedLockInit : CState :=
  ⟨askProg 0 0, askProg 1 0, none, none, []⟩

/-- Two units, each guarding with its own lock — the situation the
source produces when two LambdaZup instances share one serial port,
since __init__ creates a fresh RLock per instance. -/
def perInstanceLockInit : CState :=
  ⟨askProg 0 0, askProg 1 1, none, none, []⟩

/-- A trace is indivisible when every address-select is immediately
followed by the same unit's command (or ends the trace) and every
command is immediately followed by the same unit's reply read (or ends
the trace): no other unit's event can sit inside a
(select, command, read) sequence. -/
def indivisible : List Ev → Bool
  | [] => true
  | .adr t :: rest =>
    (match rest with
     | [] => true
     | e :: _ => decide (e = Ev.cmd t)) && indivisible rest
  | .cmd t :: rest =>
    (match rest with
     | [] => true
     | e :: _ => decide (e = Ev.rd t)) && indivisible rest
  | .rd _ :: rest => indivisible rest

/-- All states reachable from sharedLockInit under any schedule
(enumerated; closure is checked below). -/
def reachShared : List CState := [
  ⟨askProg 0 0, askProg 1 0, none, none, []⟩,
  ⟨(askProg 0 0).drop 1, askProg 1 0, some (0, 1), none, []⟩,
  ⟨askProg 0 0, (askProg 1 0).drop 1, some (1, 1), none, []⟩,
  ⟨(askProg 0 0).drop 2, askProg 1 0, some (0, 2), none, []⟩,
  ⟨askProg 0 0, (askProg 1 0).drop 2, some (1, 2), none, []⟩,
  ⟨(askProg 0 0).drop 3, askProg 1 0, some (0, 2), none, [.adr 0]⟩,
  ⟨askProg 0 0, (askProg 1 0).drop 3, some (1, 2), none, [.adr 1]⟩,
  ⟨(askProg 0 0).drop 4, askProg 1 0, some (0, 2), none, [.adr 0, .cmd 0]⟩,
  ⟨askProg 0 0, (askProg 1 0).drop 4, some (1, 2), none, [.adr 1, .cmd 1]⟩,
  ⟨(askProg 0 0).drop 5, askProg 1 0, some (0, 1), none, [.adr 0, .cmd 0]⟩,
  ⟨askProg 0 0, (askProg 1 0).drop 5, some (1, 1), none, [.adr 1, .cmd 1]⟩,
  ⟨(askProg 0 0).drop 6, askProg 1 0, some (0, 1), none,
    [.adr 0, .cmd 0, .rd 0]⟩,
  ⟨askProg 0 0, (askProg 1 0).drop 6, some (1, 1), none,
    [.adr 1, .cmd 1, .rd 1]⟩,
  ⟨[], askProg 1 0, none, none, [.adr 0, .cmd 0, .rd 0]⟩,
  ⟨askProg 0 0, [], none, none, [.adr 1, .cmd 1, .rd 1]⟩,
  ⟨[], (askProg 1 0).drop 1, some (1, 1), none, [.adr 0, .cmd 0, .rd 0]⟩,
  ⟨(askProg 0 0).drop 1, [], some (0, 1), none, [.adr 1, .cmd 1, .rd 1]⟩,
  ⟨[], (askProg 1 0).drop 2, some (1, 2), none, [.adr 0, .cmd 0, .rd 0]⟩,
  ⟨(askProg 0 0).drop 2, [], some (0, 2), none, [.adr 1, .cmd 1, .rd 1]⟩,
  ⟨[], (askProg 1 0).drop 3, some (1, 2), none,
    [.adr 0, .cmd 0, .rd 0, .adr 1]⟩,
  ⟨(askProg 0 0).drop 3, [], some (0, 2), none,
    [.adr 1, .cmd 1, .rd 1, .adr 0]⟩,
  ⟨[], (askProg 1 0).drop 4, some (1, 2), none,
    [.adr 0, .cmd 0, .rd 0, .adr 1, .cmd 1]⟩,
  ⟨(askProg 0 0).drop 4, [], some (0, 2), none,
    [.adr 1, .cmd 1, .rd 1, .adr 0, .cmd 0]⟩,
  ⟨[], (askProg 1 0).drop 5, some (1, 1), none,
    [.adr 0, .cmd 0, .rd 0, .adr 1, .cmd 1]⟩,
  ⟨(askProg 0 0).drop 5, [], some (0, 1), none,
    [.adr 1, .cmd 1, .rd 1, .adr 0, .cmd 0]⟩,
  ⟨[], (askProg 1 0).drop 6, some (1, 1), none,
    [.adr 0, .cmd 0, .rd 0, .adr 1, .cmd 1, .rd 1]⟩,
  ⟨(askProg 0 0).drop 6, [], some (0, 1), none,
    [.adr 1, .cmd 1, .rd 1, .adr 0, .cmd 0, .rd 0]⟩,
  ⟨[], [], none, none, [.adr 0, .cmd 0, .rd 0, .adr 1, .cmd 1, .rd 1]⟩,
  ⟨[], [], none, none, [.adr 1, .cmd 1, .rd 1, .adr 0, .cmd 0, .rd 0]⟩]

theorem reachShared_closed :
    ∀ s ∈ reachShared, ∀ b, lockStep s b ∈ reachShared := by decide

theorem reachShared_indivisible :
    ∀ s ∈ reachShared, indivisible s.tr = true := by decide

theorem lockRun_reachShared (sched : List Bool) :
    ∀ s ∈ reachShared, lockRun s sched ∈ reachShared := by
  induction sched with
  | nil => intro s hs; exact hs
  | cons b bs ih =>
    intro s hs
    exact ih _ (reachShared_closed s hs b)

/-! ### Claim theorems -/

/-- C5 (counterexample): the claim says that when multiple logical units
share one transport, each (address-select, command, read) sequence is
indivisible under concurrent invocation.  In the source each LambdaZup
instance builds its own RLock, so two instances sharing one serial port
guard with different locks (perInstanceLockInit); the explicit schedule
below interleaves unit 1's whole query between unit 0's address-select
and its command/read, producing the trace
adr 0, adr 1, cmd 1, rd 1, cmd 0, rd 0, which is not indivisible. -/
theorem c5_per_instance_locks_interleave :
    indivisible (lockRun perInstanceLockInit
      [false, false, false, true, true, true, true, true, true, true,
       false, false, false, false]).tr = false := by decide

/-- C5 (amended): when the two units' queries guard with one shared
lock, every schedule yields an indivisible trace: each address-select is
immediately followed by the same unit's command and each command by the
same unit's reply read.  The source only guarantees this per LambdaZup
instance, since each instance owns a separate RLock. -/
theorem c5_shared_lock_indivisible (sched : List Bool) :
    indivisible (lockRun sharedLockInit sched).tr = true :=
  reachShared_indivisible _ (lockRun_reachShared sched _ (by decide))

/-- C3: the claim says select_address(0) is rejected with a range error
before any transmission.  In the source the Python falsiness test
(if not adr) intercepts 0 and replaces it by the stored address, so
set_address(0) transmits the stored address and succeeds; the code's own
assert 0 < adr < 32 is unreachable for 0.  The other three sub-claims do
hold: 32 is rejected, 1 and 31 produce the 2-digit commands and update
the stored address. -/
theorem c3_set_address_zero_not_rejected :
    set_address 1 (some 0) = .ok (":ADR01;", 1) ∧
    set_address 7 (some 0) = .ok (":ADR07;", 7) ∧
    set_address 1 none = .ok (":ADR01;", 1) ∧
    set_address 1 (some 32) = .error .assertionError ∧
    set_address 5 (some 1) = .ok (":ADR01;", 1) ∧
    set_address 5 (some 31) = .ok (":ADR31;", 31) := by
  refine ⟨?_, ?_, ?_, ?_, ?_, ?_⟩ <;> rfl

/-- C4 (counterexample): the claim says every mode outside arm, release,
cancel is rejected before any transmission.  The source's if/elif chain
has no else branch, so an unmatched value (here the integer 3 and an
arbitrary string) returns normally (.ok) having transmitted nothing
(none) — no exception is raised. -/
theorem c4_unknown_mode_silently_ignored :
    set_foldback_protection (.pyint 3) = .ok none ∧
    set_foldback_protection (.pystr "bogus") = .ok none := by
  exact ⟨rfl, rfl⟩

/-- C4 (amended): set_foldback_protection transmits the arm command for
arm, True and 1 (Python booleans compare equal to 0 and 1), the release
command for release, False and 0, the cancel command for cancel and 2,
and for every other value transmits nothing and returns without error. -/
theorem c4_foldback_characterization (fld : PyVal) :
    set_foldback_protection fld =
      if fld = .pybool true ∨ fld = .pyint 1 ∨ fld = .pystr "arm" then
        .ok (some ":FLD1;")
      else if fld = .pybool false ∨ fld = .pyint 0 ∨ fld = .pystr "release" then
        .ok (some ":FLD0;")
      else if fld = .pyint 2 ∨ fld = .pystr "cancel" then
        .ok (some ":FLD2;")
      else .ok none := by
  cases fld with
  | pybool b =>
    cases b <;> rfl
  | pyint n =>
    simp only [set_foldback_protection, pyIn, List.any, pyEq]
    by_cases h1 : n = 1
    · subst h1; rfl
    · by_cases h0 : n = 0
      · subst h0; rfl
      · by_cases h2 : n = 2
        · subst h2; rfl
        · simp [h0, h1, h2]
  | pystr s =>
    simp only [set_foldback_protection, pyIn, List.any, pyEq]
    by_cases h1 : s = "arm"
    · subst h1; rfl
    · by_cases h0 : s = "release"
      · subst h0; rfl
      · by_cases h2 : s = "cancel"
        · subst h2; rfl
        · simp [h0, h1, h2]

/-- C6: get_output decodes the reply OT1 as true and OT0 as false, and
raises on every other reply — a ValueError when the 2-letter tag is OT
but the suffix is neither 1 nor 0 (for example OT2), an assertion error
when the tag is wrong.  No reply is silently coerced to a boolean. -/
theorem c6_get_output_characterization (reply : String) :
    get_output reply =
      if reply = "OT1" then .ok true
      else if reply = "OT0" then .ok false
      else if reply.take 2 = "OT" then .error .valueError
      else .error .assertionError := by
  by_cases h1 : reply = "OT1"
  · subst h1; rfl
  · by_cases h0 : reply = "OT0"
    · subst h0; rfl
    · by_cases ht : reply.take 2 = "OT"
      · simp [get_output, ht, h1, h0]
      · simp [get_output, ht, h1, h0]

/-- C8: _write checks the framing invariant before anything is written:
the command must start with the colon and end with the semicolon, and a
violating string raises (IndexError on the empty string, otherwise an
assertion error) with nothing transmitted, while a well-framed command
is transmitted (preceded by an address-select when the driver always
prefixes addressing). -/
theorem c8_write_framing_guard (always_send : Bool) (address : ℤ)
    (cmd : String) :
    zupWrite always_send address cmd =
      if cmd.data.head? = some ':' ∧ cmd.data.getLast? = some ';' then
        .ok ((if always_send then [":ADR" ++ pyIntPad 2 address ++ ";"]
              else []) ++ [cmd])
      else .error (if cmd.data = [] then .indexError
                   else .assertionError) := by
  match hc : cmd.data with
  | [] =>
    simp [zupWrite, hc]
  | c :: cs =>
    by_cases hcol : c = ':'
    · by_cases hsemi : (c :: cs).getLast? = some ';'
      · simp [zupWrite, hc, hcol, hsemi]
      · simp [zupWrite, hc, hcol, hsemi]
    · simp [zupWrite, hc, hcol]

theorem padZeroLeft_of_le (k : ℕ) (s : String) (h : k ≤ s.length) :
    padZeroLeft k s = s := by
  unfold padZeroLeft
  rw [Nat.sub_eq_zero_of_le h]
  exact String.empty_append s

theorem set_voltage_model (maxV w d : ℕ)
    (hfmt : v_format_strs maxV = some (w, d)) (hM : maxV < 10 ^ (w - 1 - d))
    (hd : 0 < d) (hwd : d + 2 ≤ w) (v : ℚ) :
    set_voltage maxV v =
      (if 0 ≤ v ∧ v ≤ (maxV : ℚ) then .ok (":VOL" ++ pyFixedFmt w d v ++ ";")
       else .error .assertionError) ∧
    (0 ≤ v → v ≤ (maxV : ℚ) → (pyFixedFmt w d v).length = w) := by
  constructor
  · by_cases h : 0 ≤ v ∧ v ≤ (maxV : ℚ)
    · simp only [set_voltage, if_pos h, hfmt]
    · simp only [set_voltage, if_neg h]
  · intro h0 h1
    exact pyFixedFmt_length w d maxV v h0 (by exact_mod_cast h1) hM hd hwd

/-- C1: for every rated max voltage in the enumerated model table,
set_voltage applied to v in the rated range produces exactly the command
built from the colon-VOL verb, the value rendered in that model's
fixed-width decimal format, and the semicolon — with the rendered string
having exactly the model's total width (5 characters with 3 decimals for
a 6 V unit, 5 with 2 for a 36 V unit, and so on) — while any v outside
the range is rejected by the assert with no command produced. -/
theorem c1_set_voltage_fixed_width (maxV : ℕ)
    (hm : maxV ∈ [6, 10, 20, 36, 60, 80, 120]) (v : ℚ) :
    ∃ w d, v_format_strs maxV = some (w, d) ∧
      (set_voltage maxV v =
        (if 0 ≤ v ∧ v ≤ (maxV : ℚ) then .ok (":VOL" ++ pyFixedFmt w d v ++ ";")
         else .error .assertionError) ∧
       (0 ≤ v → v ≤ (maxV : ℚ) → (pyFixedFmt w d v).length = w)) := by
  fin_cases hm
  · exact ⟨5, 3, rfl, set_voltage_model 6 5 3 rfl (by norm_num) (by norm_num)
      (by norm_num) v⟩
  · exact ⟨6, 3, rfl, set_voltage_model 10 6 3 rfl (by norm_num) (by norm_num)
      (by norm_num) v⟩
  · exact ⟨6, 3, rfl, set_voltage_model 20 6 3 rfl (by norm_num) (by norm_num)
      (by norm_num) v⟩
  · exact ⟨5, 2, rfl, set_voltage_model 36 5 2 rfl (by norm_num) (by norm_num)
      (by norm_num) v⟩
  · exact ⟨5, 2, rfl, set_voltage_model 60 5 2 rfl (by norm_num) (by norm_num)
      (by norm_num) v⟩
  · exact ⟨5, 2, rfl, set_voltage_model 80 5 2 rfl (by norm_num) (by norm_num)
      (by norm_num) v⟩
  · exact ⟨6, 2, rfl, set_voltage_model 120 6 2 rfl (by norm_num) (by norm_num)
      (by norm_num) v⟩

/-- C1 (witness): the theorem instantiated at the 6 V model and the
value 5, with the membership hypothesis discharged. -/
theorem c1_set_voltage_fixed_width_witness :
    ∃ w d, v_format_strs 6 = some (w, d) ∧
      (set_voltage 6 5 =
        (if 0 ≤ (5 : ℚ) ∧ (5 : ℚ) ≤ ((6 : ℕ) : ℚ) then
          .ok (":VOL" ++ pyFixedFmt w d 5 ++ ";")
         else .error .assertionError) ∧
       ((0 : ℚ) ≤ 5 → (5 : ℚ) ≤ ((6 : ℕ) : ℚ) →
          (pyFixedFmt w d 5).length = w)) :=
  c1_set_voltage_fixed_width 6 (by decide) 5

/-- C9: the over- and under-voltage protection setters accept any v in
the rated range and render it with the fixed width-1 2-decimal Python
specifier — a decimal string with exactly two fraction digits —
independently of the unit's rated model: unlike set_voltage, neither
consults the per-model format table. -/
theorem c9_protection_setters_fixed_format (maxV : ℕ) (v : ℚ)
    (h0 : 0 ≤ v) (h1 : v ≤ (maxV : ℚ)) :
    set_over_voltage_protection maxV v =
      .ok (":OVP" ++ pyFixedFmt 1 2 v ++ ";") ∧
    set_under_voltage_protection maxV v =
      .ok (":UVP" ++ pyFixedFmt 1 2 v ++ ";") ∧
    ∃ s t, pyFixedFmt 1 2 v = s ++ "." ++ t ∧ t.length = 2 := by
  have hrange : 0 ≤ v ∧ v ≤ (maxV : ℚ) := And.intro h0 h1
  refine ⟨by simp only [set_over_voltage_protection, if_pos hrange],
          by simp only [set_under_voltage_protection, if_pos hrange], ?_⟩
  have hscale0 : (0 : ℚ) ≤ v * (10 : ℚ) ^ (2 : ℕ) := by positivity
  have hn0 : 0 ≤ roundHalfEven (v * (10 : ℚ) ^ (2 : ℕ)) :=
    roundHalfEven_nonneg _ hscale0
  set n := roundHalfEven (v * (10 : ℚ) ^ (2 : ℕ)) with hn
  have hsign : ¬ n < 0 := by omega
  have hfraclen : (natDigits (n.natAbs % 10 ^ 2)).length ≤ 2 := by
    apply natDigits_length_le _ _ (by norm_num)
    exact Nat.mod_lt _ (by norm_num)
  have hcorelen : 1 ≤ (fmtCore 2 n.natAbs).length := by
    rw [fmtCore_length]
    omega
  refine ⟨String.mk (natDigits (n.natAbs / 10 ^ 2)),
          padZeroLeft 2 (String.mk (natDigits (n.natAbs % 10 ^ 2))), ?_, ?_⟩
  · rw [pyFixedFmt, ← hn, if_neg hsign, String.empty_append]
    have hempty : ("" : String).length = 0 := rfl
    rw [hempty, Nat.sub_zero, padZeroLeft_of_le 1 _ hcorelen]
    rfl
  · rw [padZeroLeft_length, String.length_mk]
    omega

/-- C9 (witness): the theorem instantiated at the 6 V model and the
value 5, with the range hypotheses discharged. -/
theorem c9_protection_setters_fixed_format_witness :
    set_over_voltage_protection 6 5 = .ok (":OVP" ++ pyFixedFmt 1 2 5 ++ ";") ∧
    set_under_voltage_protection 6 5 =
      .ok (":UVP" ++ pyFixedFmt 1 2 5 ++ ";") ∧
    ∃ s t, pyFixedFmt 1 2 5 = s ++ "." ++ t ∧ t.length = 2 :=
  c9_protection_setters_fixed_format 6 5 (by norm_num) (by norm_num)

theorem parseFloatBody_no_dot (sgn cs1 : List Char) (h : '.' ∉ cs1) :
    parseFloatBody sgn cs1 = none := by
  have hsub : cs1.dropWhile Char.isDigit ⊆ cs1 :=
    (List.dropWhile_sublist Char.isDigit).subset
  unfold parseFloatBody spanDigits
  rcases hdw : cs1.dropWhile Char.isDigit with _ | ⟨c2, rest2⟩
  · rfl
  · have hc2 : c2 ∈ cs1 := by
      apply hsub
      rw [hdw]
      exact List.mem_cons_self _ _
    have hne : c2 ≠ '.' := fun he => h (he ▸ hc2)
    simp only []
    split
    · rename_i heq
      rw [List.cons.injEq] at heq
      exact absurd heq.1 hne
    · rfl

theorem parseFloatField_no_dot (cs : List Char) (h : '.' ∉ cs) :
    parseFloatField cs = none := by
  match cs with
  | [] => rfl
  | c :: rest =>
    have hrest : '.' ∉ rest := fun hm => h (List.mem_cons_of_mem _ hm)
    by_cases hc : c = '+' ∨ c = '-'
    · simp only [parseFloatField, if_pos hc]
      exact parseFloatBody_no_dot [c] rest hrest
    · simp only [parseFloatField, if_neg hc]
      exact parseFloatBody_no_dot [] (c :: rest) h

/-- C7: when a composite-status reply does not match the full
fixed-sequence pattern (the leftmost-match scan finds nothing), the
findall result is empty, indexing it raises IndexError, and the driver
state is returned exactly as it was: no voltage, current, register or
flag field has been updated. -/
theorem c7_failed_parse_no_partial_update (st : DriverState) (reply : String)
    (h : findStatusMatch reply.data = none) :
    zupGetCompleteStatus st reply = (.error .indexError, st) := by
  unfold zupGetCompleteStatus
  rw [h]

/-- C7 (witness): the theorem applied to a fresh driver and the
non-matching reply OT1, the mismatch hypothesis discharged by
computation. -/
theorem c7_failed_parse_no_partial_update_witness :
    findStatusMatch "OT1".data = none ∧
    zupGetCompleteStatus initDriverState "OT1" =
      (.error .indexError, initDriverState) :=
  ⟨by decide, c7_failed_parse_no_partial_update initDriverState "OT1"
    (by decide)⟩

/-- C10: the float pattern of the composite-status regex requires a
decimal point — a field with no dot can never match it — and
consequently the literal reply whose actual-voltage field is the bare
integer 5 fails the whole composite parse with an error and no state
update. -/
theorem c10_integer_field_rejected :
    (∀ cs : List Char, '.' ∉ cs → parseFloatField cs = none) ∧
    zupGetCompleteStatus initDriverState
      "AV5SV5.010AA00.00SA24.31OS00010000AL00000PS00000" =
      (.error .indexError, initDriverState) := by
  constructor
  · exact parseFloatField_no_dot
  · have h : findStatusMatch
        "AV5SV5.010AA00.00SA24.31OS00010000AL00000PS00000".data = none := by
      decide
    unfold zupGetCompleteStatus
    rw [h]

/-- C10 (witness): the general dotless-field part applied to the
single-character field 5, the no-dot hypothesis discharged by
computation. -/
theorem c10_integer_field_rejected_witness :
    ('.' ∉ ['5']) ∧ parseFloatField ['5'] = none :=
  ⟨by decide, c10_integer_field_rejected.1 ['5'] (by decide)⟩

/-- C2: on the literal device reply
AV5.010SV5.010AA00.00SA24.31OS00010000AL00000PS00000 the composite
status parse extracts actual voltage 5.010, setpoint voltage 5.010,
actual current 0, setpoint current 24.31, the operational register
00010000, the alarm register 00000 and the programming-error register
00000, and the decoded flags set output-on (operational bit 3) to true
while every other operational, alarm and programming-error flag is
false. -/
theorem c2_complete_status_literal :
    zupGetCompleteStatus initDriverState
      "AV5.010SV5.010AA00.00SA24.31OS00010000AL00000PS00000" =
      (.ok ((5.010 : ℚ), (5.010 : ℚ), (0 : ℚ), (24.31 : ℚ),
            "00010000", "00000", "00000"),
       { voltage_actual := some (5.010 : ℚ),
         voltage_setp := some (5.010 : ℚ),
         current_actual := some (0 : ℚ),
         current_setp := some (24.31 : ℚ),
         operational_status_register := some "00010000",
         alarm_status_register := some "00000",
         programming_status_register := some "00000",
         cc_cv := some false, foldback_armed := some false,
         auto_restart_mode := some false, output := some true,
         foldback_srq := some false, over_voltage_srq := some false,
         over_temp_srq := some false, alarm_active := some false,
         alarm_ovp := some false, alarm_otp := some false,
         alarm_ac_fail := some false, alarm_foldback := some false,
         alarm_prog := some false, prog_err_wrong_command := some false,
         prog_err_buffer_overflow := some false,
         prog_err_wrong_voltage := some false,
         prog_err_wrong_current := some false }) := by
  have h1 : zupGetCompleteStatus initDriverState
      "AV5.010SV5.010AA00.00SA24.31OS00010000AL00000PS00000" =
      (.ok ((((5010 : ℤ) : ℚ) / (10 : ℚ) ^ (3 : ℕ)),
            (((5010 : ℤ) : ℚ) / (10 : ℚ) ^ (3 : ℕ)),
            (((0 : ℤ) : ℚ) / (10 : ℚ) ^ (2 : ℕ)),
            (((2431 : ℤ) : ℚ) / (10 : ℚ) ^ (2 : ℕ)),
            "00010000", "00000", "00000"),
       { voltage_actual := some (((5010 : ℤ) : ℚ) / (10 : ℚ) ^ (3 : ℕ)),
         voltage_setp := some (((5010 : ℤ) : ℚ) / (10 : ℚ) ^ (3 : ℕ)),
         current_actual := some (((0 : ℤ) : ℚ) / (10 : ℚ) ^ (2 : ℕ)),
         current_setp := some (((2431 : ℤ) : ℚ) / (10 : ℚ) ^ (2 : ℕ)),
         operational_status_register := some "00010000",
         alarm_status_register := some "00000",
         programming_status_register := some "00000",
         cc_cv := some false, foldback_armed := some false,
         auto_restart_mode := some false, output := some true,
         foldback_srq := some false, over_voltage_srq := some false,
         over_temp_srq := some false, alarm_active := some false,
         alarm_ovp := some false, alarm_otp := some false,
         alarm_ac_fail := some false, alarm_foldback := some false,
         alarm_prog := some false, prog_err_wrong_command := some false,
         prog_err_buffer_overflow := some false,
         prog_err_wrong_voltage := some false,
         prog_err_wrong_current := some false }) := rfl
  rw [h1]
  simp only [Prod.mk.injEq, Except.ok.injEq, DriverState.mk.injEq,
    Option.some.injEq]
  norm_num
